import Mathlib

/-!
Verification development for the seatgeek-mcp repository.

The definitions below are a shallow embedding of the TypeScript sources:
query builders, the zod validation schemas, the retrying HTTP fetch loop,
the event condensation helper and the tool handlers of the two tool
generations present in the repository.  JavaScript numbers that the code
only compares and copies are modelled as integers; JavaScript objects are
modelled as association lists in insertion order; thrown exceptions are
modelled with Except.
-/

namespace SeatgeekMCP

/-- A JSON value, as received from the SeatGeek API. -/
inductive Json where
  | null
  | bool (b : Bool)
  | num (n : Int)
  | str (s : String)
  | arr (items : List Json)
  | obj (fields : List (String × Json))

/-- First-match association-list lookup, the observable behaviour of
reading a property of a JavaScript object. -/
def qlookup {α : Type} (k : String) : List (String × α) → Option α
  | [] => none
  | (a, v) :: rest => if a = k then some v else qlookup k rest

/-- JavaScript property assignment on an object copy: replace the value of
an existing key in place, otherwise append the new key at the end
(object keys are unique, so replacing the first occurrence is exact). -/
def jsSet {α : Type} : List (String × α) → String → α → List (String × α)
  | [], k, v => [(k, v)]
  | (a, b) :: rest, k, v => if a = k then (k, v) :: rest else (a, b) :: jsSet rest k v

/-- A value appearing in an outbound query map.  The list_events generation
places a nested object under the venue key, hence the obj constructor. -/
inductive QVal where
  | str (s : String)
  | int (n : Int)
  | bool (b : Bool)
  | obj (fields : List (String × QVal))

/-- JavaScript truthiness of an optional string: false for absent, null and
the empty string. -/
def truthyStr : Option String → Bool
  | none => false
  | some s => !(s == "")

/-- JavaScript `x || null` applied to an optional number: a present zero is
falsy and collapses to null. -/
def jsNumOrNull (v : Option Int) : Option Int :=
  match v with
  | some n => if n == 0 then none else some n
  | none => none

/-- One entry of the query object before filtering: drop null/undefined
values (`value !== null && value !== undefined`). -/
def keepQueryEntryNN (pr : String × Option QVal) : Option (String × QVal) :=
  match pr.2 with
  | none => none
  | some v => some (pr.1, v)

/-- The filter loop of the seatgeek_events generation builders: drop
null/undefined values. -/
def dropNullish (l : List (String × Option QVal)) : List (String × QVal) :=
  l.filterMap keepQueryEntryNN

/-- One entry of the query object before filtering in the stricter builders:
drop null/undefined and the empty string
(`value !== null && value !== undefined && value !== ''`). -/
def keepQueryEntry (pr : String × Option QVal) : Option (String × QVal) :=
  match pr.2 with
  | none => none
  | some (QVal.str s) => if s == "" then none else some (pr.1, QVal.str s)
  | some v => some (pr.1, v)

/-- The filter loop of the list_events / find_events generation builders:
drop null/undefined and empty-string values. -/
def dropNullishEmpty (l : List (String × Option QVal)) : List (String × QVal) :=
  l.filterMap keepQueryEntry

/-- withClientId from the shared module of the client_id generation
(src/src/tools/sectionInfo.ts lines 189-198): inject SEATGEEK_CLIENT_ID
into a copy of the query if configured, otherwise return the query. -/
def withClientId (clientId : Option String) (query : List (String × QVal)) :
    List (String × QVal) :=
  match clientId with
  | some cid => jsSet query "client_id" (QVal.str cid)
  | none => query

/-- The base-64 alphabet used by Buffer.toString("base64"). -/
def base64Alphabet : String :=
  "ABCDEFGHIJKLMNOPQRSTUVWXYZabcdefghijklmnopqrstuvwxyz0123456789+/"

/-- The base-64 digit for a 6-bit value. -/
def b64Char (n : Nat) : Char := base64Alphabet.toList.getD n 'A'

/-- Encode a final group of one, two or three bytes as four base-64
characters, padding with the equals sign. -/
def base64Group : List Nat → List Char
  | [a] => [b64Char (a / 4), b64Char (a % 4 * 16), '=', '=']
  | [a, b] => [b64Char (a / 4), b64Char (a % 4 * 16 + b / 16), b64Char (b % 16 * 4), '=']
  | [a, b, c] =>
      [b64Char (a / 4), b64Char (a % 4 * 16 + b / 16), b64Char (b % 16 * 4 + c / 64),
       b64Char (c % 64)]
  | _ => []

/-- Encode a byte list in three-byte groups. -/
def base64Bytes : List Nat → List Char
  | a :: b :: c :: rest => base64Group [a, b, c] ++ base64Bytes rest
  | rest => base64Group rest

/-- UTF-8 encoding of one character, as Buffer.from performs it. -/
def charUtf8 (c : Char) : List Nat :=
  let n := c.toNat
  if n < 128 then [n]
  else if n < 2048 then [192 + n / 64, 128 + n % 64]
  else if n < 65536 then [224 + n / 4096, 128 + n / 64 % 64, 128 + n % 64]
  else [240 + n / 262144, 128 + n / 4096 % 64, 128 + n / 64 % 64, 128 + n % 64]

/-- The UTF-8 bytes of a string. -/
def utf8Bytes (s : String) : List Nat := (s.toList.map charUtf8).flatten

/-- Buffer.from(s).toString("base64"). -/
def base64Encode (s : String) : String := String.mk (base64Bytes (utf8Bytes s))

/-- The fixed header set of every fetch
(`User-Agent: seatgeek-mcp/0.1 (+mcp)`). -/
def DEFAULT_HEADERS : List (String × String) := [("User-Agent", "seatgeek-mcp/0.1 (+mcp)")]

/-- The headers computed by fetchJson in src/src/tools/shared.ts lines
32-39: a copy of the defaults, plus a Basic Authorization header for the
client id (with an empty password) when one is configured. -/
def fetchJsonHeaders (clientId : Option String) : List (String × String) :=
  match clientId with
  | some cid => jsSet DEFAULT_HEADERS "Authorization" ("Basic " ++ base64Encode (cid ++ ":"))
  | none => DEFAULT_HEADERS

/-- The headers used by the fetchJson defined alongside withClientId
(src/src/tools/sectionInfo.ts lines 203-253): always exactly the default
header set, never an Authorization header. -/
def fetchJsonHeadersNoAuth : List (String × String) := DEFAULT_HEADERS

/-- The SeatGeek base URL. -/
def SEATGEEK_API_BASE : String := "https://api.seatgeek.com/2"

/-- The events endpoint. -/
def EVENTS_ENDPOINT : String := SEATGEEK_API_BASE ++ "/events"

/-- zod `z.number().min(1).max(50).default(10)` for per_page: absent takes
the default, a present value outside the range raises a validation error. -/
def parsePerPage (v : Option Int) : Except String Int :=
  match v with
  | none => .ok 10
  | some n =>
      if n < 1 then .error "per_page is below the minimum of 1"
      else if 50 < n then .error "per_page is above the maximum of 50"
      else .ok n

/-- zod `z.number().min(1).default(1)` for page. -/
def parsePage (v : Option Int) : Except String Int :=
  match v with
  | none => .ok 1
  | some n => if n < 1 then .error "page is below the minimum of 1" else .ok n

/-- zod enum check for the format parameter, default structured. -/
def parseFormat (v : Option String) : Except String String :=
  match v with
  | none => .ok "structured"
  | some f => if f = "structured" ∨ f = "json" then .ok f else .error "invalid format value"

/-- The argument object of the seatgeek_events tool before validation
(EventsQuerySchema in src/src/tools/eventList.ts lines 6-22); every field
is optional and nullable, both modelled as none. -/
structure EventsArgs where
  q : Option String := none
  id : Option Int := none
  type : Option String := none
  addons_visible : Option Bool := none
  performer_id : Option Int := none
  performer_slug : Option String := none
  venue_city : Option String := none
  venue_state : Option String := none
  venue_country : Option String := none
  start_utc : Option String := none
  end_utc : Option String := none
  per_page : Option Int := none
  page : Option Int := none
  sort : Option String := none
  format : Option String := none

/-- The validated parameters of seatgeek_events, with defaults applied. -/
structure EventsParams where
  q : Option String
  id : Option Int
  type : Option String
  addons_visible : Option Bool
  performer_id : Option Int
  performer_slug : Option String
  venue_city : Option String
  venue_state : Option String
  venue_country : Option String
  start_utc : Option String
  end_utc : Option String
  per_page : Int
  page : Int
  sort : Option String
  format : String

/-- EventsQuerySchema.parse of the seatgeek_events tool: the passthrough
fields are copied, the constrained fields are checked with their defaults. -/
def eventsQueryParse (a : EventsArgs) : Except String EventsParams :=
  match parsePerPage a.per_page with
  | .error m => .error m
  | .ok pp =>
    match parsePage a.page with
    | .error m => .error m
    | .ok pg =>
      match parseFormat a.format with
      | .error m => .error m
      | .ok fmt =>
          .ok { q := a.q, id := a.id, type := a.type, addons_visible := a.addons_visible,
                performer_id := a.performer_id, performer_slug := a.performer_slug,
                venue_city := a.venue_city, venue_state := a.venue_state,
                venue_country := a.venue_country, start_utc := a.start_utc,
                end_utc := a.end_utc, per_page := pp, page := pg, sort := a.sort,
                format := fmt }

/-- buildQuery of the seatgeek_events tool, src/src/tools/eventList.ts lines
26-59: the query object in source order, the two conditional date keys, the
null/undefined filter, and finally withClientId. -/
def buildEventsQuery (clientId : Option String) (p : EventsParams) :
    List (String × QVal) :=
  withClientId clientId (dropNullish (
    [("q", p.q.map QVal.str),
     ("id", p.id.map QVal.int),
     ("type", p.type.map QVal.str),
     ("addons_visible", p.addons_visible.map QVal.bool),
     ("performers.id", p.performer_id.map QVal.int),
     ("performers.slug", p.performer_slug.map QVal.str),
     ("venue.city", p.venue_city.map QVal.str),
     ("venue.state", p.venue_state.map QVal.str),
     ("venue.country", p.venue_country.map QVal.str),
     ("per_page", some (QVal.int (min p.per_page 50))),
     ("page", some (QVal.int p.page)),
     ("sort", p.sort.map QVal.str)]
    ++ (if truthyStr p.start_utc then [("datetime_utc.gte", some (QVal.str (p.start_utc.getD "")))] else [])
    ++ (if truthyStr p.end_utc then [("datetime_utc.lte", some (QVal.str (p.end_utc.getD "")))] else [])))

/-- The validated parameters of the second seatgeek_events generation
(src/src/tools/eventList.ts lines 151-163), which drops the id, type,
addons_visible and performer_id fields. -/
structure EventsParams2 where
  q : Option String
  performer_slug : Option String
  venue_city : Option String
  venue_state : Option String
  venue_country : Option String
  start_utc : Option String
  end_utc : Option String
  per_page : Int
  page : Int
  sort : Option String
  format : String

/-- buildQuery of the second seatgeek_events generation,
src/src/tools/eventList.ts lines 167-196: performers.slug and the venue
keys are all emitted unconditionally when their argument is set. -/
def buildEventsQuery2 (clientId : Option String) (p : EventsParams2) :
    List (String × QVal) :=
  withClientId clientId (dropNullish (
    [("q", p.q.map QVal.str),
     ("performers.slug", p.performer_slug.map QVal.str),
     ("venue.city", p.venue_city.map QVal.str),
     ("venue.state", p.venue_state.map QVal.str),
     ("venue.country", p.venue_country.map QVal.str),
     ("per_page", some (QVal.int (min p.per_page 50))),
     ("page", some (QVal.int p.page)),
     ("sort", p.sort.map QVal.str)]
    ++ (if truthyStr p.start_utc then [("datetime_utc.gte", some (QVal.str (p.start_utc.getD "")))] else [])
    ++ (if truthyStr p.end_utc then [("datetime_utc.lte", some (QVal.str (p.end_utc.getD "")))] else [])))

/-- The validated parameters of the list_events tool
(src/unnamed/part_002 lines 6-18). -/
structure ListEventsParams where
  q : Option String
  performer_slug : Option String
  venue_city : Option String
  venue_state : Option String
  venue_country : Option String
  start_utc : Option String
  end_utc : Option String
  per_page : Int
  page : Int
  sort : Option String
  format : String

/-- The argument object of the list_events tool before validation. -/
structure ListEventsArgs where
  q : Option String := none
  performer_slug : Option String := none
  venue_city : Option String := none
  venue_state : Option String := none
  venue_country : Option String := none
  start_utc : Option String := none
  end_utc : Option String := none
  per_page : Option Int := none
  page : Option Int := none
  sort : Option String := none
  format : Option String := none

/-- EventsQuerySchema.parse of the list_events tool. -/
def listEventsValidate (a : ListEventsArgs) : Except String ListEventsParams :=
  match parsePerPage a.per_page with
  | .error m => .error m
  | .ok pp =>
    match parsePage a.page with
    | .error m => .error m
    | .ok pg =>
      match parseFormat a.format with
      | .error m => .error m
      | .ok fmt =>
          .ok { q := a.q, performer_slug := a.performer_slug, venue_city := a.venue_city,
                venue_state := a.venue_state, venue_country := a.venue_country,
                start_utc := a.start_utc, end_utc := a.end_utc, per_page := pp,
                page := pg, sort := a.sort, format := fmt }

/-- The nested venue object built by the list_events builder when only
venue filters are present (src/unnamed/part_002 lines 36-42). -/
def listEventsVenueObj (p : ListEventsParams) : List (String × QVal) :=
  (if truthyStr p.venue_city then [("city", QVal.str (p.venue_city.getD ""))] else [])
  ++ (if truthyStr p.venue_state then [("state", QVal.str (p.venue_state.getD ""))] else [])
  ++ (if truthyStr p.venue_country then [("country", QVal.str (p.venue_country.getD ""))] else [])

/-- buildQuery of the list_events tool, src/unnamed/part_002 lines 22-62:
a truthy performer_slug produces performers.slug and suppresses the venue
branch entirely; otherwise truthy venue filters produce one nested venue
key; finally the null/undefined/empty-string filter is applied and no
client id is injected. -/
def buildListEventsQuery (p : ListEventsParams) : List (String × QVal) :=
  dropNullishEmpty (
    [("q", p.q.map QVal.str),
     ("per_page", some (QVal.int (min p.per_page 50))),
     ("page", some (QVal.int p.page)),
     ("sort", p.sort.map QVal.str)]
    ++ (if truthyStr p.performer_slug then
          [("performers.slug", some (QVal.str (p.performer_slug.getD "")))]
        else if truthyStr p.venue_city || truthyStr p.venue_state || truthyStr p.venue_country then
          [("venue", some (QVal.obj (listEventsVenueObj p)))]
        else [])
    ++ (if truthyStr p.start_utc then [("datetime_utc.gte", some (QVal.str (p.start_utc.getD "")))] else [])
    ++ (if truthyStr p.end_utc then [("datetime_utc.lte", some (QVal.str (p.end_utc.getD "")))] else []))

/-- The retry budget of fetchJson (MAX_RETRIES in
src/src/tools/shared.ts line 16). -/
def MAX_RETRIES : Nat := 2

/-- The observable outcome of one attempt of axios.get: a parsed body, a
timeout (ECONNABORTED / ETIMEDOUT), a network error
(ENOTFOUND / ECONNREFUSED), or an HTTP error response with a status. -/
inductive AttemptOutcome where
  | success (v : Json)
  | timeout
  | netError
  | httpError (status : Nat)

/-- The result of fetchJson: the parsed body, or one of the raised errors.
timeoutError and networkError carry the attempt count stated in their
message; httpThrown is the rethrown axios error; exhausted is the throw
after the loop. -/
inductive FetchOutcome where
  | ok (v : Json)
  | timeoutError (attempts : Nat)
  | networkError (attempts : Nat)
  | httpThrown (status : Nat)
  | exhausted (attempts : Nat)

/-- The retry loop of fetchJson (src/src/tools/shared.ts lines 41-87),
driven by an oracle giving the outcome of each attempt.  Returns the
result, the number of attempts made, and the list of backoff waits
performed.  The fuel argument is the loop bound `attempt <= MAX_RETRIES`;
running out of fuel is the unreachable throw after the loop. -/
def fetchGo (outs : Nat → AttemptOutcome) :
    Nat → Nat → Nat → List Nat → FetchOutcome × Nat × List Nat
  | 0, attempt, _, waits => (.exhausted (MAX_RETRIES + 1), attempt, waits)
  | fuel + 1, attempt, backoffMs, waits =>
    match outs attempt with
    | .success v => (.ok v, attempt + 1, waits)
    | .timeout =>
        if MAX_RETRIES ≤ attempt then (.timeoutError (MAX_RETRIES + 1), attempt + 1, waits)
        else fetchGo outs fuel (attempt + 1) (backoffMs * 2) (waits ++ [backoffMs])
    | .netError =>
        if MAX_RETRIES ≤ attempt then (.networkError (MAX_RETRIES + 1), attempt + 1, waits)
        else fetchGo outs fuel (attempt + 1) (backoffMs * 2) (waits ++ [backoffMs])
    | .httpError s =>
        if 500 ≤ s ∧ s < 600 ∧ attempt < MAX_RETRIES then
          fetchGo outs fuel (attempt + 1) (backoffMs * 2) (waits ++ [backoffMs])
        else (.httpThrown s, attempt + 1, waits)

/-- fetchJson as a function of the attempt oracle: the loop starts at
attempt 0 with a 500 ms backoff and an empty wait list. -/
def fetchJsonModel (outs : Nat → AttemptOutcome) : FetchOutcome × Nat × List Nat :=
  fetchGo outs (MAX_RETRIES + 1) 0 500 []

/-- Whether one attempt outcome is retried by fetchJson: timeouts, network
errors, and HTTP statuses in the interval from 500 inclusive to 600
exclusive. -/
def retryableB : AttemptOutcome → Bool
  | .success _ => false
  | .timeout => true
  | .netError => true
  | .httpError s => decide (500 ≤ s) && decide (s < 600)

/-- A raw location object nested in a raw venue. -/
structure RawLocation where
  lat : Option Int := none
  lon : Option Int := none
deriving DecidableEq

/-- A raw venue object of an unvalidated event payload, with the fields
read by condenseEventData. -/
structure RawVenue where
  name : Option String := none
  slug : Option String := none
  display_location : Option String := none
  address : Option String := none
  extended_address : Option String := none
  capacity : Option Int := none
  url : Option String := none
  timezone : Option String := none
  city : Option String := none
  state : Option String := none
  location : Option RawLocation := none
deriving DecidableEq

/-- A raw genre tag of a raw performer. -/
structure RawGenre where
  name : Option String := none
deriving DecidableEq

/-- A raw performer object of an unvalidated event payload. -/
structure RawPerformer where
  name : Option String := none
  short_name : Option String := none
  slug : Option String := none
  url : Option String := none
  image : Option String := none
  genres : Option (List RawGenre) := none
  popularity : Option Int := none
  num_upcoming_events : Option Int := none
deriving DecidableEq

/-- A raw event payload as consumed by condenseEventData and by the
find_events merge; only id is mandatory. -/
structure RawEvent where
  id : Nat
  title : Option String := none
  short_title : Option String := none
  type : Option String := none
  status : Option String := none
  url : Option String := none
  datetime_local : Option String := none
  datetime_utc : Option String := none
  enddatetime_utc : Option String := none
  performers : Option (List RawPerformer) := none
  venue : Option RawVenue := none
  popularity : Option Int := none
deriving DecidableEq

/-- The condensed performer shape of src/src/shared/helpers.ts. -/
structure CondensedPerformer where
  name : Option String
  short_name : Option String
  slug : Option String
  url : Option String
  image : Option String
  genres : List String
  popularity : Option Int
  num_upcoming_events : Option Int
deriving DecidableEq

/-- The condensed venue shape of src/src/shared/helpers.ts. -/
structure CondensedVenue where
  name : Option String
  slug : Option String
  display_location : Option String
  address : Option String
  extended_address : Option String
  capacity : Option Int
  url : Option String
  timezone : Option String
  lat : Option Int
  lon : Option Int
deriving DecidableEq

/-- The condensed event shape of src/src/shared/helpers.ts. -/
structure CondensedEvent where
  id : Nat
  title : Option String
  short_title : Option String
  type : Option String
  status : Option String
  url : Option String
  datetime_local : Option String
  datetime_utc : Option String
  enddatetime_utc : Option String
  performers : List CondensedPerformer
  venue : Option CondensedVenue
  popularity : Option Int
deriving DecidableEq

/-- The performer condensation of condenseEventData
(src/src/shared/helpers.ts lines 43-52): field copies plus the genre names
with falsy entries filtered out. -/
def condensePerformer (p : RawPerformer) : CondensedPerformer :=
  { name := p.name, short_name := p.short_name, slug := p.slug, url := p.url,
    image := p.image,
    genres := (p.genres.getD []).filterMap (fun g =>
      match g.name with
      | some n => if n == "" then none else some n
      | none => none),
    popularity := p.popularity, num_upcoming_events := p.num_upcoming_events }

/-- The venue condensation of condenseEventData (src/src/shared/helpers.ts
lines 56-69): display_location falls back to city comma state when both are
truthy, and lat and lon are `event.venue.location?.lat || null`, so a
present zero collapses to null. -/
def condenseVenue (v : RawVenue) : CondensedVenue :=
  { name := v.name, slug := v.slug,
    display_location :=
      if truthyStr v.display_location then v.display_location
      else if truthyStr v.city && truthyStr v.state then
        some (v.city.getD "" ++ ", " ++ v.state.getD "")
      else none,
    address := v.address, extended_address := v.extended_address,
    capacity := v.capacity, url := v.url, timezone := v.timezone,
    lat := jsNumOrNull (v.location.bind (fun l => l.lat)),
    lon := jsNumOrNull (v.location.bind (fun l => l.lon)) }

/-- condenseEventData of src/src/shared/helpers.ts lines 41-85. -/
def condenseEventData (e : RawEvent) : CondensedEvent :=
  { id := e.id, title := e.title, short_title := e.short_title, type := e.type,
    status := e.status, url := e.url, datetime_local := e.datetime_local,
    datetime_utc := e.datetime_utc, enddatetime_utc := e.enddatetime_utc,
    performers := (e.performers.getD []).map condensePerformer,
    venue := e.venue.map condenseVenue,
    popularity := e.popularity }

/-- The stateful filter of the find_events merge (src/unnamed/part_003
lines 129-136): keep an event only if its id has not been seen yet. -/
def dedupByIdAux (seen : List Nat) : List RawEvent → List RawEvent
  | [] => []
  | e :: rest =>
      if e.id ∈ seen then dedupByIdAux seen rest
      else e :: dedupByIdAux (e.id :: seen) rest

/-- De-duplication of the merged fan-out event list by event id, first
occurrence winning. -/
def dedupById (events : List RawEvent) : List RawEvent := dedupByIdAux [] events

/-- The insertion-order de-duplication performed by a JavaScript Set
constructor, keeping the first occurrence of each element. -/
def dedupFirstAux (seen : List String) : List String → List String
  | [] => []
  | s :: rest =>
      if s ∈ seen then dedupFirstAux seen rest
      else s :: dedupFirstAux (s :: seen) rest

/-- The raw performer objects returned by searchPerformers, as read by the
find_events handler, which only uses the slug. -/
structure PerformerLite where
  slug : Option String := none
deriving DecidableEq

/-- The unique performer slugs of the find_events fan-out
(src/unnamed/part_003 line 108): map to slugs, filter falsy, then dedup
through a Set in first-occurrence order. -/
def slugCandidates (performers : List PerformerLite) : List String :=
  dedupFirstAux [] ((performers.map (fun pf => pf.slug)).filterMap (fun s =>
    match s with
    | some t => if t == "" then none else some t
    | none => none))

/-- The argument object of the find_events tool before validation
(src/unnamed/part_003 lines 8-18). -/
structure FindEventsArgs where
  q : Option String := none
  venue_city : Option String := none
  venue_state : Option String := none
  venue_country : Option String := none
  start_utc : Option String := none
  end_utc : Option String := none
  per_page : Option Int := none
  page : Option Int := none
  format : Option String := none

/-- The validated parameters of find_events. -/
structure FindEventsParams where
  q : Option String
  venue_city : Option String
  venue_state : Option String
  venue_country : Option String
  start_utc : Option String
  end_utc : Option String
  per_page : Int
  page : Int
  format : String

/-- EventsQuerySchema.parse of the find_events tool; in the handler this
runs before the try block. -/
def findEventsValidate (a : FindEventsArgs) : Except String FindEventsParams :=
  match parsePerPage a.per_page with
  | .error m => .error m
  | .ok pp =>
    match parsePage a.page with
    | .error m => .error m
    | .ok pg =>
      match parseFormat a.format with
      | .error m => .error m
      | .ok fmt =>
          .ok { q := a.q, venue_city := a.venue_city, venue_state := a.venue_state,
                venue_country := a.venue_country, start_utc := a.start_utc,
                end_utc := a.end_utc, per_page := pp, page := pg, format := fmt }

/-- The data-resolution flow of the find_events handler
(src/unnamed/part_003 lines 96-157), with searchPerformers modelled by its
result list (it swallows its own failures), the per-slug event fetches by
slugFetch, and the direct q-based events fetch by directFetch.  A truthy q
with performers and slugs fans out over the unique slugs, merges and
de-duplicates; a fan-out failure is caught and falls back to the direct
fetch; every other path is the direct fetch.  A direct-fetch failure
propagates to the outer catch of the handler. -/
def findEventsData (p : FindEventsParams) (performers : List PerformerLite)
    (slugFetch : String → Except String (List RawEvent))
    (directFetch : Except String (List RawEvent)) : Except String (List RawEvent) :=
  if truthyStr p.q then
    if performers.length > 0 then
      if (slugCandidates performers).length > 0 then
        match (slugCandidates performers).mapM slugFetch with
        | .ok results => .ok (dedupById results.flatten)
        | .error _ => directFetch
      else directFetch
    else directFetch
  else directFetch

/-- An error thrown out of a tool handler: a zod validation error or a
fetch failure. -/
inductive Thrown where
  | zodError (msg : String)
  | fetchFailure (msg : String)
deriving DecidableEq

/-- The details object of the structured error block built in the catch
blocks of the discovery and listing tools. -/
structure ErrorDetails (α : Type) where
  error : String
  message : String
  timestamp : String
  endpoint : String
  args : α

/-- A tool result content block: a successful payload, or the structured
error object with an error string, details and a suggestion. -/
inductive ToolResult (α β : Type) where
  | success (value : β)
  | errorBlock (error : String) (details : ErrorDetails α) (suggestion : String)

/-- The payload of a successful find_events call: condensed events, or the
raw merged data when format is json. -/
inductive FindEventsPayload where
  | condensed (events : List CondensedEvent)
  | raw (events : List RawEvent)

/-- The payload of a successful listing call: the validated event items, or
the raw body when format is json. -/
inductive ListingPayload where
  | structured (events : List Json)
  | raw (data : Json)

/-- Whether an Except value is a success. -/
def exceptOk {ε α : Type} : Except ε α → Bool
  | .ok _ => true
  | .error _ => false

/-- zod z.string() as a boolean check on a JSON value. -/
def isString : Json → Bool
  | .str _ => true
  | _ => false

/-- zod z.number(). -/
def isNumber : Json → Bool
  | .num _ => true
  | _ => false

/-- zod z.boolean(). -/
def isBoolean : Json → Bool
  | .bool _ => true
  | _ => false

/-- zod .nullable(): the explicit null is accepted, anything else must pass
the inner check. -/
def nullableOf (f : Json → Bool) : Json → Bool
  | .null => true
  | v => f v

/-- A required object key: an absent key fails, a present value must pass
the check. -/
def requiredKey (fields : List (String × Json)) (k : String) (f : Json → Bool) : Bool :=
  match qlookup k fields with
  | some v => f v
  | none => false

/-- An optional object key (zod .optional()): an absent key is accepted. -/
def optionalKey (fields : List (String × Json)) (k : String) (f : Json → Bool) : Bool :=
  match qlookup k fields with
  | some v => f v
  | none => true

/-- zod z.array(f). -/
def arrayOf (f : Json → Bool) : Json → Bool
  | .arr items => items.all f
  | _ => false

/-- zod z.record(f): an object whose every value passes the check. -/
def recordOf (f : Json → Bool) : Json → Bool
  | .obj fields => fields.all (fun pr => f pr.2)
  | _ => false

/-- SectionInfoSchema (src/src/tools/sectionInfo.ts lines 4-6): an object
whose sections key holds null or a record of string arrays; the key itself
is required, since the record is nullable but not optional. -/
def SectionInfoSchemaValid : Json → Bool
  | .obj fields => requiredKey fields "sections" (nullableOf (recordOf (arrayOf isString)))
  | _ => false

/-- ImageSetSchema of src/src/schemas/eventModels.ts. -/
def ImageSetSchemaValid : Json → Bool
  | .obj f =>
      requiredKey f "huge" (nullableOf isString) &&
      requiredKey f "large" (nullableOf isString) &&
      requiredKey f "medium" (nullableOf isString) &&
      requiredKey f "small" (nullableOf isString)
  | _ => false

/-- PerformerSchema of src/src/schemas/eventModels.ts. -/
def PerformerSchemaValid : Json → Bool
  | .obj f =>
      requiredKey f "id" isNumber &&
      requiredKey f "name" (nullableOf isString) &&
      requiredKey f "short_name" (nullableOf isString) &&
      requiredKey f "slug" (nullableOf isString) &&
      requiredKey f "type" (nullableOf isString) &&
      requiredKey f "url" (nullableOf isString) &&
      requiredKey f "image" (nullableOf isString) &&
      requiredKey f "images" (nullableOf ImageSetSchemaValid) &&
      requiredKey f "primary" (nullableOf isBoolean) &&
      requiredKey f "score" (nullableOf isNumber)
  | _ => false

/-- VenueLocationSchema of src/src/schemas/eventModels.ts. -/
def VenueLocationSchemaValid : Json → Bool
  | .obj f =>
      requiredKey f "lat" (nullableOf isNumber) &&
      requiredKey f "lon" (nullableOf isNumber)
  | _ => false

/-- VenueSchema of src/src/schemas/eventModels.ts. -/
def VenueSchemaValid : Json → Bool
  | .obj f =>
      requiredKey f "id" isNumber &&
      requiredKey f "name" (nullableOf isString) &&
      requiredKey f "address" (nullableOf isString) &&
      requiredKey f "city" (nullableOf isString) &&
      requiredKey f "state" (nullableOf isString) &&
      requiredKey f "country" (nullableOf isString) &&
      requiredKey f "postal_code" (nullableOf isString) &&
      requiredKey f "extended_address" (nullableOf isString) &&
      requiredKey f "url" (nullableOf isString) &&
      requiredKey f "score" (nullableOf isNumber) &&
      requiredKey f "location" (nullableOf VenueLocationSchemaValid)
  | _ => false

/-- TaxonomySchema of src/src/schemas/eventModels.ts. -/
def TaxonomySchemaValid : Json → Bool
  | .obj f =>
      requiredKey f "id" isNumber &&
      requiredKey f "name" (nullableOf isString) &&
      requiredKey f "parent_id" (nullableOf isString)
  | _ => false

/-- IntegratedSchema of src/src/schemas/eventModels.ts. -/
def IntegratedSchemaValid : Json → Bool
  | .obj f =>
      requiredKey f "provider_id" (nullableOf isString) &&
      requiredKey f "provider_name" (nullableOf isString)
  | _ => false

/-- EventSchema of src/src/schemas/eventModels.ts lines 60-79: every field
is required; venue_display is nullable but not optional, so an object
without the key fails. -/
def EventSchemaValid : Json → Bool
  | .obj f =>
      requiredKey f "id" isNumber &&
      requiredKey f "title" (nullableOf isString) &&
      requiredKey f "short_title" (nullableOf isString) &&
      requiredKey f "type" (nullableOf isString) &&
      requiredKey f "url" (nullableOf isString) &&
      requiredKey f "score" (nullableOf isNumber) &&
      requiredKey f "announce_date" (nullableOf isString) &&
      requiredKey f "datetime_local" (nullableOf isString) &&
      requiredKey f "datetime_utc" (nullableOf isString) &&
      requiredKey f "datetime_tbd" (nullableOf isBoolean) &&
      requiredKey f "date_tbd" (nullableOf isBoolean) &&
      requiredKey f "time_tbd" (nullableOf isBoolean) &&
      requiredKey f "visible_until" (nullableOf isString) &&
      requiredKey f "performers" (nullableOf (arrayOf PerformerSchemaValid)) &&
      requiredKey f "venue" (nullableOf VenueSchemaValid) &&
      requiredKey f "taxonomies" (nullableOf (arrayOf TaxonomySchemaValid)) &&
      requiredKey f "integrated" (nullableOf IntegratedSchemaValid) &&
      requiredKey f "venue_display" (nullableOf isString)
  | _ => false

/-- ImageSetSchema of the permissive schema generation
(src/unnamed/part_000 lines 123-128): large, medium and small are
optional. -/
def ImageSetSchemaValidPermissive : Json → Bool
  | .obj f =>
      requiredKey f "huge" (nullableOf isString) &&
      optionalKey f "large" (nullableOf isString) &&
      optionalKey f "medium" (nullableOf isString) &&
      optionalKey f "small" (nullableOf isString)
  | _ => false

/-- PerformerSchema of the permissive generation: primary is optional. -/
def PerformerSchemaValidPermissive : Json → Bool
  | .obj f =>
      requiredKey f "id" isNumber &&
      requiredKey f "name" (nullableOf isString) &&
      requiredKey f "short_name" (nullableOf isString) &&
      requiredKey f "slug" (nullableOf isString) &&
      requiredKey f "type" (nullableOf isString) &&
      requiredKey f "url" (nullableOf isString) &&
      requiredKey f "image" (nullableOf isString) &&
      requiredKey f "images" (nullableOf ImageSetSchemaValidPermissive) &&
      optionalKey f "primary" (nullableOf isBoolean) &&
      requiredKey f "score" (nullableOf isNumber)
  | _ => false

/-- TaxonomySchema of the permissive generation: parent_id is a nullable
union of string and number. -/
def TaxonomySchemaValidPermissive : Json → Bool
  | .obj f =>
      requiredKey f "id" isNumber &&
      requiredKey f "name" (nullableOf isString) &&
      requiredKey f "parent_id" (nullableOf (fun v => isString v || isNumber v))
  | _ => false

/-- EventSchema of the permissive generation (src/unnamed/part_000 lines
179-198): visible_until and venue_display are optional, so an object
without the venue_display key is accepted. -/
def EventSchemaValidPermissive : Json → Bool
  | .obj f =>
      requiredKey f "id" isNumber &&
      requiredKey f "title" (nullableOf isString) &&
      requiredKey f "short_title" (nullableOf isString) &&
      requiredKey f "type" (nullableOf isString) &&
      requiredKey f "url" (nullableOf isString) &&
      requiredKey f "score" (nullableOf isNumber) &&
      requiredKey f "announce_date" (nullableOf isString) &&
      requiredKey f "datetime_local" (nullableOf isString) &&
      requiredKey f "datetime_utc" (nullableOf isString) &&
      requiredKey f "datetime_tbd" (nullableOf isBoolean) &&
      requiredKey f "date_tbd" (nullableOf isBoolean) &&
      requiredKey f "time_tbd" (nullableOf isBoolean) &&
      optionalKey f "visible_until" (nullableOf isString) &&
      requiredKey f "performers" (nullableOf (arrayOf PerformerSchemaValidPermissive)) &&
      requiredKey f "venue" (nullableOf VenueSchemaValid) &&
      requiredKey f "taxonomies" (nullableOf (arrayOf TaxonomySchemaValidPermissive)) &&
      requiredKey f "integrated" (nullableOf IntegratedSchemaValid) &&
      optionalKey f "venue_display" (nullableOf isString)
  | _ => false

/-- The events array of a fetched body (`data.events || []`). -/
def eventsField : Json → List Json
  | .obj f =>
      match qlookup "events" f with
      | some (.arr items) => items
      | _ => []
  | _ => []

/-- Which raw items survive the structured loop of the listing handlers
(src/src/tools/eventList.ts lines 113-134): each item is parsed with
EventSchema and items that fail validation are skipped.  The per-item
venue_display enrichment changes the emitted record but not which items
are kept, which is what the claims about this path concern. -/
def structuredEventsKept (eventsRaw : List Json) : List Json :=
  eventsRaw.filter (fun item => EventSchemaValid item)

/-- The find_events handler (src/unnamed/part_003 lines 93-218): the
argument parse runs before the try block, so a validation failure is
thrown; a failure of the data resolution is caught and turned into the
structured error block; otherwise the events are condensed, or returned
raw when format is json. -/
def findEventsHandler (now : String) (args : FindEventsArgs)
    (performers : List PerformerLite)
    (slugFetch : String → Except String (List RawEvent))
    (directFetch : Except String (List RawEvent)) :
    Except Thrown (ToolResult FindEventsArgs FindEventsPayload) :=
  match findEventsValidate args with
  | .error m => .error (.zodError m)
  | .ok p =>
    match findEventsData p performers slugFetch directFetch with
    | .error m =>
        .ok (.errorBlock "Failed to fetch events"
          { error := "API_REQUEST_FAILED", message := m, timestamp := now,
            endpoint := EVENTS_ENDPOINT, args := args }
          "Please check your parameters and try again. Common issues include invalid search terms or venue codes.")
    | .ok events =>
        if p.format == "json" then .ok (.success (.raw events))
        else .ok (.success (.condensed (events.map condenseEventData)))

/-- The list_events handler (src/unnamed/part_002 lines 86-163): the whole
body, validation included, is wrapped in a try whose catch returns the
structured error block, so the handler never throws. -/
def listEventsP2Handler (now : String) (a : ListEventsArgs)
    (fetch : List (String × QVal) → Except String Json) :
    Except Thrown (ToolResult ListEventsArgs ListingPayload) :=
  match listEventsValidate a with
  | .error m =>
      .ok (.errorBlock "Failed to fetch events"
        { error := "API_REQUEST_FAILED", message := m, timestamp := now,
          endpoint := EVENTS_ENDPOINT, args := a }
        "Please check your parameters and try again. Common issues include invalid performer slugs or venue codes.")
  | .ok p =>
    match fetch (buildListEventsQuery p) with
    | .error m =>
        .ok (.errorBlock "Failed to fetch events"
          { error := "API_REQUEST_FAILED", message := m, timestamp := now,
            endpoint := EVENTS_ENDPOINT, args := a }
          "Please check your parameters and try again. Common issues include invalid performer slugs or venue codes.")
    | .ok data =>
        if p.format == "json" then .ok (.success (.raw data))
        else .ok (.success (.structured (structuredEventsKept (eventsField data))))

/-- The seatgeek_events handler (src/src/tools/eventList.ts lines 87-144):
no try/catch at all, so both a validation failure and a fetch failure
propagate out of the handler. -/
def seatgeekEventsHandler (clientId : Option String) (a : EventsArgs)
    (fetch : List (String × QVal) → Except String Json) :
    Except Thrown (ToolResult EventsArgs ListingPayload) :=
  match eventsQueryParse a with
  | .error m => .error (.zodError m)
  | .ok p =>
    match fetch (buildEventsQuery clientId p) with
    | .error m => .error (.fetchFailure m)
    | .ok data =>
        if p.format == "json" then .ok (.success (.raw data))
        else .ok (.success (.structured (structuredEventsKept (eventsField data))))

/-- An outbound HTTP GET request of the fetch layer: its URL, its query
parameter map, and its headers. -/
structure OutboundRequest where
  url : String
  params : List (String × QVal)
  headers : List (String × String)

/-- The request the seatgeek_events handler issues for validated
parameters: the query built by buildQuery (which ends in withClientId) and
the headers computed by fetchJson in src/src/tools/shared.ts. -/
def seatgeekEventsRequest (clientId : Option String) (p : EventsParams) : OutboundRequest :=
  { url := EVENTS_ENDPOINT, params := buildEventsQuery clientId p,
    headers := fetchJsonHeaders clientId }

/-- The seatgeek_events argument object with no field supplied. -/
def emptyEventsArgs : EventsArgs := {}

/-- The validated parameters produced for the empty argument object: every
filter absent, per_page 10, page 1, format structured. -/
def defaultEventsParams : EventsParams :=
  { q := none, id := none, type := none, addons_visible := none, performer_id := none,
    performer_slug := none, venue_city := none, venue_state := none, venue_country := none,
    start_utc := none, end_utc := none, per_page := 10, page := 1, sort := none,
    format := "structured" }

/-- A seatgeek_events argument object requesting per_page 0. -/
def lowPerPageArgs : EventsArgs := { per_page := some 0 }

/-- A find_events argument object requesting per_page 0. -/
def lowPerPageFindArgs : FindEventsArgs := { per_page := some 0 }

/-- Validated parameters of the second seatgeek_events generation carrying
both a performer slug and a venue city. -/
def bothFiltersParams2 : EventsParams2 :=
  { q := none, performer_slug := some "the-weeknd", venue_city := some "New York",
    venue_state := none, venue_country := none, start_utc := none, end_utc := none,
    per_page := 10, page := 1, sort := none, format := "structured" }

/-- A raw event whose venue location carries latitude 0 and longitude 0,
both present numeric values. -/
def zeroLocEvent : RawEvent :=
  { id := 1, venue := some { location := some { lat := some 0, lon := some 0 } } }

/-- Fan-out sample: the only event of the first branch. -/
def evA : RawEvent := { id := 1, title := some "first" }

/-- Fan-out sample: the duplicated event as the first branch returns it. -/
def evB : RawEvent := { id := 2, title := some "kept" }

/-- Fan-out sample: the same event id as returned by the second branch. -/
def evB2 : RawEvent := { id := 2, title := some "dropped" }

/-- Fan-out sample: the only fresh event of the second branch. -/
def evC : RawEvent := { id := 3, title := some "third" }

/-- The fields of an upstream event object that is valid in every respect
except that it carries no venue_display key, which the API never sends. -/
def sampleEventFields : List (String × Json) :=
  [("id", Json.num 12), ("title", Json.str "Jazz Night"), ("short_title", Json.null),
   ("type", Json.null), ("url", Json.null), ("score", Json.num 1),
   ("announce_date", Json.null), ("datetime_local", Json.null), ("datetime_utc", Json.null),
   ("datetime_tbd", Json.bool false), ("date_tbd", Json.bool false),
   ("time_tbd", Json.bool false), ("visible_until", Json.null), ("performers", Json.null),
   ("venue", Json.null), ("taxonomies", Json.null), ("integrated", Json.null)]

/-- The upstream event object built from those fields. -/
def sampleEventNoVenueDisplay : Json := Json.obj sampleEventFields

/-- A raw location with nonzero coordinates. -/
def posLoc : RawLocation := { lat := some 40, lon := some (-74) }

/-- A raw venue carrying that location. -/
def posLocVenue : RawVenue := { name := some "MSG", location := some posLoc }

/-- A raw event carrying that venue. -/
def posLocEvent : RawEvent := { id := 7, venue := some posLocVenue }

/-- A find_events argument object with no field supplied. -/
def emptyFindArgs : FindEventsArgs := {}

/-- The validated find_events parameters for the empty argument object. -/
def defaultFindParams : FindEventsParams :=
  { q := none, venue_city := none, venue_state := none, venue_country := none,
    start_utc := none, end_utc := none, per_page := 10, page := 1,
    format := "structured" }

/-- A list_events argument object requesting per_page 0. -/
def lowPerPageListArgs : ListEventsArgs := { per_page := some 0 }

/-- Validated list_events parameters carrying both a performer slug and a
venue city. -/
def bothFiltersListParams : ListEventsParams :=
  { q := none, performer_slug := some "the-weeknd", venue_city := some "New York",
    venue_state := none, venue_country := none, start_utc := none, end_utc := none,
    per_page := 10, page := 1, sort := none, format := "structured" }

theorem qlookup_jsSet_self {α : Type} (m : List (String × α)) (k : String) (v : α) :
    qlookup k (jsSet m k v) = some v := by
  induction m with
  | nil => simp [jsSet, qlookup]
  | cons x rest ih =>
      obtain ⟨a, b⟩ := x
      by_cases h : a = k
      · simp [jsSet, qlookup, h]
      · simp [jsSet, qlookup, h, ih]

theorem qlookup_jsSet_ne {α : Type} (m : List (String × α)) (k k2 : String) (v : α)
    (h : k2 ≠ k) : qlookup k2 (jsSet m k v) = qlookup k2 m := by
  induction m with
  | nil =>
      simp only [jsSet, qlookup]
      rw [if_neg (fun hEq => h (Eq.symm hEq))]
  | cons x rest ih =>
      obtain ⟨a, b⟩ := x
      by_cases ha : a = k
      · subst ha
        simp only [jsSet, if_pos rfl, qlookup]
        rw [if_neg (fun hEq => h (Eq.symm hEq)), if_neg (fun hEq => h (Eq.symm hEq))]
      · simp only [jsSet, if_neg ha, qlookup]
        by_cases ha2 : a = k2
        · rw [if_pos ha2, if_pos ha2]
        · rw [if_neg ha2, if_neg ha2]
          exact ih

theorem qlookup_withClientId_ne (clientId : Option String) (q : List (String × QVal))
    (k : String) (h : k ≠ "client_id") :
    qlookup k (withClientId clientId q) = qlookup k q := by
  cases clientId with
  | none => rfl
  | some c => exact qlookup_jsSet_ne q "client_id" k (QVal.str c) h

theorem keepQueryEntryNN_fst (pr : String × Option QVal) (y : String × QVal)
    (h : keepQueryEntryNN pr = some y) : y.1 = pr.1 := by
  obtain ⟨a, v⟩ := pr
  cases v with
  | none => simp [keepQueryEntryNN] at h
  | some w => simp [keepQueryEntryNN] at h; simp [← h]

theorem keepQueryEntry_fst (pr : String × Option QVal) (y : String × QVal)
    (h : keepQueryEntry pr = some y) : y.1 = pr.1 := by
  obtain ⟨a, v⟩ := pr
  cases v with
  | none => simp [keepQueryEntry] at h
  | some w =>
      cases w with
      | str s =>
          by_cases hs : s == ""
          · simp [keepQueryEntry, hs] at h
          · simp [keepQueryEntry, hs] at h; simp [← h]
      | int n => simp [keepQueryEntry] at h; simp [← h]
      | bool b => simp [keepQueryEntry] at h; simp [← h]
      | obj o => simp [keepQueryEntry] at h; simp [← h]

theorem qlookup_dropNullish_append (l rest : List (String × Option QVal)) (k : String)
    (h : ∀ pr ∈ l, pr.1 ≠ k) :
    qlookup k (dropNullish (l ++ rest)) = qlookup k (dropNullish rest) := by
  induction l with
  | nil => rfl
  | cons x xs ih =>
      have hx : x.1 ≠ k := h x (List.mem_cons_self x xs)
      have hxs : ∀ pr ∈ xs, pr.1 ≠ k := fun pr hpr => h pr (List.mem_cons_of_mem x hpr)
      simp only [List.cons_append, dropNullish, List.filterMap_cons]
      cases hk : keepQueryEntryNN x with
      | none => exact ih hxs
      | some y =>
          have hy : y.1 ≠ k := by rw [keepQueryEntryNN_fst x y hk]; exact hx
          obtain ⟨a, v⟩ := y
          simp only [qlookup, if_neg hy]
          exact ih hxs

theorem qlookup_dropNullish_hit (k : String) (v : QVal)
    (rest : List (String × Option QVal)) :
    qlookup k (dropNullish ((k, some v) :: rest)) = some v := by
  simp [dropNullish, List.filterMap_cons, keepQueryEntryNN, qlookup]

theorem qlookup_dropNullishEmpty_append (l rest : List (String × Option QVal)) (k : String)
    (h : ∀ pr ∈ l, pr.1 ≠ k) :
    qlookup k (dropNullishEmpty (l ++ rest)) = qlookup k (dropNullishEmpty rest) := by
  induction l with
  | nil => rfl
  | cons x xs ih =>
      have hx : x.1 ≠ k := h x (List.mem_cons_self x xs)
      have hxs : ∀ pr ∈ xs, pr.1 ≠ k := fun pr hpr => h pr (List.mem_cons_of_mem x hpr)
      simp only [List.cons_append, dropNullishEmpty, List.filterMap_cons]
      cases hk : keepQueryEntry x with
      | none => exact ih hxs
      | some y =>
          have hy : y.1 ≠ k := by rw [keepQueryEntry_fst x y hk]; exact hx
          obtain ⟨a, v⟩ := y
          simp only [qlookup, if_neg hy]
          exact ih hxs

theorem qlookup_dropNullishEmpty_hit_str (k : String) (s : String)
    (rest : List (String × Option QVal)) (hs : s ≠ "") :
    qlookup k (dropNullishEmpty ((k, some (QVal.str s)) :: rest)) = some (QVal.str s) := by
  simp [dropNullishEmpty, List.filterMap_cons, keepQueryEntry, hs, qlookup]

theorem qlookup_dropNullishEmpty_none (l : List (String × Option QVal)) (k : String)
    (h : ∀ pr ∈ l, pr.1 ≠ k) : qlookup k (dropNullishEmpty l) = none := by
  have := qlookup_dropNullishEmpty_append l [] k h
  rw [List.append_nil] at this
  rw [this]
  rfl

theorem qlookup_dropNullish_cons_ne (a : String) (v : Option QVal)
    (l : List (String × Option QVal)) (k : String) (h : a ≠ k) :
    qlookup k (dropNullish ((a, v) :: l)) = qlookup k (dropNullish l) := by
  simp only [dropNullish, List.filterMap_cons]
  cases hk : keepQueryEntryNN (a, v) with
  | none => rfl
  | some y =>
      have hy : y.1 ≠ k := by rw [keepQueryEntryNN_fst (a, v) y hk]; exact h
      obtain ⟨a2, v2⟩ := y
      simp only [qlookup, if_neg hy]

theorem qlookup_dropNullishEmpty_cons_ne (a : String) (v : Option QVal)
    (l : List (String × Option QVal)) (k : String) (h : a ≠ k) :
    qlookup k (dropNullishEmpty ((a, v) :: l)) = qlookup k (dropNullishEmpty l) := by
  simp only [dropNullishEmpty, List.filterMap_cons]
  cases hk : keepQueryEntry (a, v) with
  | none => rfl
  | some y =>
      have hy : y.1 ≠ k := by rw [keepQueryEntry_fst (a, v) y hk]; exact h
      obtain ⟨a2, v2⟩ := y
      simp only [qlookup, if_neg hy]

theorem mem_ite_nil {α : Type} {c : Prop} [Decidable c] {pr : α} {l : List α}
    (h : pr ∈ if c then l else []) : pr ∈ l := by
  split at h
  · exact h
  · simp at h

theorem mem_dedupByIdAux {l : List RawEvent} :
    ∀ {seen : List Nat} {e : RawEvent}, e ∈ dedupByIdAux seen l → e ∈ l ∧ e.id ∉ seen := by
  induction l with
  | nil => intro seen e h; simp [dedupByIdAux] at h
  | cons x rest ih =>
      intro seen e h
      by_cases hx : x.id ∈ seen
      · rw [dedupByIdAux, if_pos hx] at h
        obtain ⟨h1, h2⟩ := ih h
        exact ⟨List.mem_cons_of_mem x h1, h2⟩
      · rw [dedupByIdAux, if_neg hx] at h
        rcases List.mem_cons.mp h with hEq | h2
        · subst hEq; exact ⟨List.mem_cons_self e rest, hx⟩
        · obtain ⟨h3, h4⟩ := ih h2
          exact ⟨List.mem_cons_of_mem x h3, fun hc => h4 (List.mem_cons_of_mem x.id hc)⟩

theorem find_dedupByIdAux {l : List RawEvent} :
    ∀ {seen : List Nat} {e : RawEvent}, e ∈ dedupByIdAux seen l →
      l.find? (fun x => x.id == e.id) = some e := by
  induction l with
  | nil => intro seen e h; simp [dedupByIdAux] at h
  | cons x rest ih =>
      intro seen e h
      by_cases hx : x.id ∈ seen
      · rw [dedupByIdAux, if_pos hx] at h
        have hne : ¬(x.id == e.id) = true := by
          simp only [beq_iff_eq]
          intro hEq
          exact (mem_dedupByIdAux h).2 (hEq ▸ hx)
        rw [List.find?_cons_of_neg rest hne]
        exact ih h
      · rw [dedupByIdAux, if_neg hx] at h
        rcases List.mem_cons.mp h with hEq | h2
        · subst hEq
          rw [List.find?_cons_of_pos rest (by simp)]
        · have hmem := mem_dedupByIdAux h2
          have hne : ¬(x.id == e.id) = true := by
            simp only [beq_iff_eq]
            intro hEq
            exact hmem.2 (by rw [← hEq]; exact List.mem_cons_self x.id seen)
          rw [List.find?_cons_of_neg rest hne]
          exact ih h2

theorem ids_nodup_dedupByIdAux (l : List RawEvent) :
    ∀ seen : List Nat, ((dedupByIdAux seen l).map (fun e => e.id)).Nodup := by
  induction l with
  | nil => intro seen; simp [dedupByIdAux]
  | cons x rest ih =>
      intro seen
      by_cases hx : x.id ∈ seen
      · rw [dedupByIdAux, if_pos hx]; exact ih seen
      · rw [dedupByIdAux, if_neg hx]
        simp only [List.map_cons, List.nodup_cons]
        constructor
        · intro hc
          obtain ⟨e, he, hEq⟩ := List.mem_map.mp hc
          exact (mem_dedupByIdAux he).2 (hEq ▸ List.mem_cons_self x.id seen)
        · exact ih (x.id :: seen)

theorem filter_single_of_nodup_ids :
    ∀ (l : List RawEvent), ((l.map (fun e => e.id)).Nodup) →
      ∀ e ∈ l, l.filter (fun x => x.id == e.id) = [e] := by
  intro l
  induction l with
  | nil => intro _ e he; simp at he
  | cons y rest ih =>
      intro hn e he
      simp only [List.map_cons, List.nodup_cons] at hn
      rcases List.mem_cons.mp he with hEq | h2
      · subst hEq
        rw [List.filter_cons, if_pos (by simp)]
        have hnil : rest.filter (fun x => x.id == e.id) = [] := by
          rw [List.filter_eq_nil_iff]
          intro x hx
          simp only [beq_iff_eq]
          intro hc
          exact hn.1 (hc ▸ List.mem_map.mpr ⟨x, hx, rfl⟩)
        rw [hnil]
      · have hne : ¬(y.id == e.id) = true := by
          simp only [beq_iff_eq]
          intro hc
          exact hn.1 (hc ▸ List.mem_map.mpr ⟨e, h2, rfl⟩)
        rw [List.filter_cons, if_neg hne]
        exact ih hn.2 e h2

theorem exists_id_dedupByIdAux {l : List RawEvent} :
    ∀ {seen : List Nat} {i : Nat}, i ∉ seen →
      ((∃ e ∈ l, e.id = i) ↔ ∃ e ∈ dedupByIdAux seen l, e.id = i) := by
  induction l with
  | nil => intro seen i _; simp [dedupByIdAux]
  | cons x rest ih =>
      intro seen i hni
      by_cases hx : x.id ∈ seen
      · rw [dedupByIdAux, if_pos hx]
        constructor
        · rintro ⟨e, he, rfl⟩
          rcases List.mem_cons.mp he with hEq | h2
          · exact absurd (hEq ▸ hx) hni
          · exact (ih hni).mp ⟨e, h2, rfl⟩
        · rintro ⟨e, he, rfl⟩
          obtain ⟨e2, he2, hEq⟩ := (ih hni).mpr ⟨e, he, rfl⟩
          exact ⟨e2, List.mem_cons_of_mem x he2, hEq⟩
      · rw [dedupByIdAux, if_neg hx]
        constructor
        · rintro ⟨e, he, rfl⟩
          rcases List.mem_cons.mp he with hEq | h2
          · exact ⟨x, List.mem_cons_self x _, by rw [hEq]⟩
          · by_cases hxi : x.id = e.id
            · exact ⟨x, List.mem_cons_self x _, hxi⟩
            · have hni2 : e.id ∉ x.id :: seen := by
                intro hc
                rcases List.mem_cons.mp hc with hEq2 | h3
                · exact hxi hEq2.symm
                · exact hni h3
              obtain ⟨e2, he2, hEq⟩ := (ih hni2).mp ⟨e, h2, rfl⟩
              exact ⟨e2, List.mem_cons_of_mem x he2, hEq⟩
        · rintro ⟨e, he, rfl⟩
          have := (mem_dedupByIdAux (l := x :: rest) (by rw [dedupByIdAux, if_neg hx]; exact he)).1
          exact ⟨e, this, rfl⟩

theorem fetchGo_step_retry (outs : Nat → AttemptOutcome) (fuel attempt backoffMs : Nat)
    (waits : List Nat) (hr : retryableB (outs attempt) = true) (hlt : attempt < MAX_RETRIES) :
    fetchGo outs (fuel + 1) attempt backoffMs waits =
      fetchGo outs fuel (attempt + 1) (backoffMs * 2) (waits ++ [backoffMs]) := by
  cases ho : outs attempt with
  | success v => rw [ho] at hr; simp [retryableB] at hr
  | timeout =>
      simp only [fetchGo, ho]
      rw [if_neg (by omega)]
  | netError =>
      simp only [fetchGo, ho]
      rw [if_neg (by omega)]
  | httpError s =>
      rw [ho] at hr
      simp only [retryableB, Bool.and_eq_true, decide_eq_true_eq] at hr
      simp only [fetchGo, ho]
      rw [if_pos ⟨hr.1, hr.2, hlt⟩]

theorem fetchGo_success_eq (outs : Nat → AttemptOutcome) (fuel attempt backoffMs : Nat)
    (waits : List Nat) (v : Json) (h : outs attempt = .success v) :
    fetchGo outs (fuel + 1) attempt backoffMs waits = (.ok v, attempt + 1, waits) := by
  simp only [fetchGo, h]

theorem fetchGo_http_fatal (outs : Nat → AttemptOutcome) (fuel attempt backoffMs : Nat)
    (waits : List Nat) (s : Nat) (h : outs attempt = .httpError s)
    (hn : ¬(500 ≤ s ∧ s < 600 ∧ attempt < MAX_RETRIES)) :
    fetchGo outs (fuel + 1) attempt backoffMs waits = (.httpThrown s, attempt + 1, waits) := by
  simp only [fetchGo, h]
  rw [if_neg hn]

theorem fetchGo_timeout_last (outs : Nat → AttemptOutcome) (fuel attempt backoffMs : Nat)
    (waits : List Nat) (h : outs attempt = .timeout) (hge : MAX_RETRIES ≤ attempt) :
    fetchGo outs (fuel + 1) attempt backoffMs waits =
      (.timeoutError (MAX_RETRIES + 1), attempt + 1, waits) := by
  simp only [fetchGo, h]
  rw [if_pos hge]

theorem fetchGo_net_last (outs : Nat → AttemptOutcome) (fuel attempt backoffMs : Nat)
    (waits : List Nat) (h : outs attempt = .netError) (hge : MAX_RETRIES ≤ attempt) :
    fetchGo outs (fuel + 1) attempt backoffMs waits =
      (.networkError (MAX_RETRIES + 1), attempt + 1, waits) := by
  simp only [fetchGo, h]
  rw [if_pos hge]

theorem fetchGo_attempts_le (outs : Nat → AttemptOutcome) :
    ∀ (fuel attempt backoffMs : Nat) (waits : List Nat),
      (fetchGo outs fuel attempt backoffMs waits).2.1 ≤ attempt + fuel := by
  intro fuel
  induction fuel with
  | zero => intro attempt backoffMs waits; simp [fetchGo]
  | succ n ih =>
      intro attempt backoffMs waits
      cases ho : outs attempt with
      | success v => simp only [fetchGo, ho]; omega
      | timeout =>
          simp only [fetchGo, ho]
          split
          · show attempt + 1 ≤ attempt + (n + 1)
            omega
          · exact le_trans (ih (attempt + 1) (backoffMs * 2) (waits ++ [backoffMs])) (by omega)
      | netError =>
          simp only [fetchGo, ho]
          split
          · show attempt + 1 ≤ attempt + (n + 1)
            omega
          · exact le_trans (ih (attempt + 1) (backoffMs * 2) (waits ++ [backoffMs])) (by omega)
      | httpError s =>
          simp only [fetchGo, ho]
          split
          · exact le_trans (ih (attempt + 1) (backoffMs * 2) (waits ++ [backoffMs])) (by omega)
          · show attempt + 1 ≤ attempt + (n + 1)
            omega

/-- Claim C1, counterexample: with a configured client id, the request the
seatgeek_events handler issues carries the client_id query parameter
injected by withClientId and, at the same time, the Basic Authorization
header added by fetchJson, so the two authentication mechanisms are not
mutually exclusive as claimed. -/
theorem clientId_query_and_basic_auth_counterexample :
    qlookup "client_id" (seatgeekEventsRequest (some "abc") defaultEventsParams).params
        = some (QVal.str "abc") ∧
    qlookup "Authorization" (seatgeekEventsRequest (some "abc") defaultEventsParams).headers
        = some "Basic YWJjOg==" := by
  exact ⟨rfl, rfl⟩

/-- Claim C1 (amended): with a configured client id, a query passed through
withClientId carries client_id and the fetchJson of src/src/tools/shared.ts
simultaneously attaches the Basic Authorization header, so a request built
from both carries both; the exclusivity holds only with no client id
configured (neither appears), and for the fetchJson generation defined
alongside withClientId, which never attaches an Authorization header. -/
theorem clientId_injection_generations (cid : String) (q : List (String × QVal)) :
    qlookup "client_id" (withClientId (some cid) q) = some (QVal.str cid) ∧
    qlookup "Authorization" (fetchJsonHeaders (some cid))
        = some ("Basic " ++ base64Encode (cid ++ ":")) ∧
    withClientId none q = q ∧
    qlookup "Authorization" (fetchJsonHeaders none) = none ∧
    qlookup "Authorization" fetchJsonHeadersNoAuth = none := by
  exact ⟨qlookup_jsSet_self q "client_id" (QVal.str cid), rfl, rfl, rfl, rfl⟩

/-- Claim C10: withClientId is pure on its input map; with no configured
client id it returns the input map itself, and with one configured it
returns a copy that agrees with the input on every key other than
client_id and binds client_id to the configured id. -/
theorem withClientId_pure_frame (q : List (String × QVal)) :
    withClientId none q = q ∧
    (∀ c : String, qlookup "client_id" (withClientId (some c) q) = some (QVal.str c)) ∧
    (∀ (c k : String), k ≠ "client_id" →
        qlookup k (withClientId (some c) q) = qlookup k q) := by
  exact ⟨rfl, fun c => qlookup_jsSet_self q "client_id" (QVal.str c),
    fun c k hk => qlookup_jsSet_ne q "client_id" k (QVal.str c) hk⟩

/-- Witness for claim C10 at a concrete query map and key. -/
theorem withClientId_pure_frame_witness :
    qlookup "q" (withClientId (some "abc") [("q", QVal.str "adele")])
      = qlookup "q" [("q", QVal.str "adele")] :=
  (withClientId_pure_frame [("q", QVal.str "adele")]).2.2 "abc" "q" (by decide)

/-- Claim C7, counterexample: a raw event whose venue location carries the
present numeric values lat 0 and lon 0 is condensed to a venue with lat
null and lon null, because the source coerces them with `|| null`. -/
theorem condense_lat_zero_counterexample :
    (zeroLocEvent.venue.bind (fun v => v.location)).bind (fun l => l.lat) = some 0 ∧
    (zeroLocEvent.venue.bind (fun v => v.location)).bind (fun l => l.lon) = some 0 ∧
    (condenseEventData zeroLocEvent).venue.bind (fun v => v.lat) = none ∧
    (condenseEventData zeroLocEvent).venue.bind (fun v => v.lon) = none := by
  exact ⟨rfl, rfl, rfl, rfl⟩

/-- Claim C7 (amended): condenseEventData copies lat and lon from the
nested location object when they are present and nonzero; a present 0 is
coerced to null by the JavaScript truthiness fallback, and an absent value
is null. -/
theorem condense_lat_lon_truthy (e : RawEvent) (v : RawVenue) (loc : RawLocation)
    (hv : e.venue = some v) (hl : v.location = some loc) :
    (condenseEventData e).venue = some (condenseVenue v) ∧
    (∀ n : Int, loc.lat = some n → n ≠ 0 → (condenseVenue v).lat = some n) ∧
    ((loc.lat = none ∨ loc.lat = some 0) → (condenseVenue v).lat = none) ∧
    (∀ n : Int, loc.lon = some n → n ≠ 0 → (condenseVenue v).lon = some n) ∧
    ((loc.lon = none ∨ loc.lon = some 0) → (condenseVenue v).lon = none) := by
  refine ⟨by simp [condenseEventData, hv], ?_, ?_, ?_, ?_⟩
  · intro n hn hnz
    simp [condenseVenue, hl, hn, jsNumOrNull, hnz]
  · rintro (hn | hn) <;> simp [condenseVenue, hl, hn, jsNumOrNull]
  · intro n hn hnz
    simp [condenseVenue, hl, hn, jsNumOrNull, hnz]
  · rintro (hn | hn) <;> simp [condenseVenue, hl, hn, jsNumOrNull]

/-- Witness for claim C7 at a concrete event with nonzero coordinates. -/
theorem condense_lat_lon_truthy_witness :
    (condenseEventData posLocEvent).venue = some (condenseVenue posLocVenue) ∧
    (condenseVenue posLocVenue).lat = some 40 ∧
    (condenseVenue posLocVenue).lon = some (-74) := by
  have h := condense_lat_lon_truthy posLocEvent posLocVenue posLoc rfl rfl
  exact ⟨h.1, h.2.1 40 rfl (by decide), h.2.2.2.1 (-74) rfl (by decide)⟩

/-- Claim C8, counterexample: a payload that omits the sections key
entirely is rejected by SectionInfoSchema, not tolerated: the field is
nullable but not optional. -/
theorem section_info_absent_counterexample :
    SectionInfoSchemaValid (Json.obj []) = false ∧
    SectionInfoSchemaValid (Json.obj [("stadium", Json.str "x")]) = false := by
  exact ⟨rfl, rfl⟩

/-- Claim C8 (amended): SectionInfoSchema accepts a payload whose sections
key holds a mapping from section names to lists of row-label strings, and
accepts an explicit null sections, but rejects a payload from which the
sections key is absent. -/
theorem section_info_validation (fields : List (String × Json)) :
    (qlookup "sections" fields = none → SectionInfoSchemaValid (Json.obj fields) = false) ∧
    (qlookup "sections" fields = some Json.null →
        SectionInfoSchemaValid (Json.obj fields) = true) ∧
    (∀ m : List (String × Json), qlookup "sections" fields = some (Json.obj m) →
        m.all (fun pr => arrayOf isString pr.2) = true →
        SectionInfoSchemaValid (Json.obj fields) = true) := by
  refine ⟨?_, ?_, ?_⟩
  · intro h
    simp [SectionInfoSchemaValid, requiredKey, h]
  · intro h
    simp [SectionInfoSchemaValid, requiredKey, h, nullableOf]
  · intro m h hall
    simp [SectionInfoSchemaValid, requiredKey, h, nullableOf, recordOf, hall]

/-- Witness for claim C8 at concrete payloads. -/
theorem section_info_validation_witness :
    SectionInfoSchemaValid (Json.obj [("sections", Json.null)]) = true ∧
    SectionInfoSchemaValid
      (Json.obj [("sections",
        Json.obj [("Section A", Json.arr [Json.str "1", Json.str "2"])])]) = true := by
  exact ⟨(section_info_validation [("sections", Json.null)]).2.1 rfl,
    (section_info_validation
      [("sections", Json.obj [("Section A", Json.arr [Json.str "1", Json.str "2"])])]).2.2
      [("Section A", Json.arr [Json.str "1", Json.str "2"])] rfl rfl⟩

/-- Claim C9: the EventSchema of src/src/schemas/eventModels.ts declares
venue_display nullable but not optional, so every object without that key
fails validation and is dropped by the structured listing path, while the
permissive generation of the schema accepts the same object because it
marks venue_display optional. -/
theorem venue_display_strict_vs_permissive :
    (∀ fields : List (String × Json), qlookup "venue_display" fields = none →
        EventSchemaValid (Json.obj fields) = false) ∧
    EventSchemaValidPermissive sampleEventNoVenueDisplay = true ∧
    EventSchemaValid sampleEventNoVenueDisplay = false ∧
    structuredEventsKept [sampleEventNoVenueDisplay] = [] := by
  refine ⟨?_, rfl, rfl, rfl⟩
  intro fields h
  simp [EventSchemaValid, requiredKey, h]

/-- Witness for claim C9 at the concrete sample event fields. -/
theorem venue_display_strict_vs_permissive_witness :
    EventSchemaValid (Json.obj sampleEventFields) = false :=
  venue_display_strict_vs_permissive.1 sampleEventFields rfl

theorem eventsQueryParse_ok_fields (a : EventsArgs) (p : EventsParams)
    (h : eventsQueryParse a = .ok p) :
    parsePerPage a.per_page = .ok p.per_page ∧ parsePage a.page = .ok p.page := by
  cases h1 : parsePerPage a.per_page with
  | error m =>
      unfold eventsQueryParse at h
      rw [h1] at h
      exact Except.noConfusion h
  | ok pp =>
    cases h2 : parsePage a.page with
    | error m =>
        unfold eventsQueryParse at h
        rw [h1, h2] at h
        exact Except.noConfusion h
    | ok pg =>
      cases h3 : parseFormat a.format with
      | error m =>
          unfold eventsQueryParse at h
          rw [h1, h2, h3] at h
          exact Except.noConfusion h
      | ok fmt =>
          unfold eventsQueryParse at h
          rw [h1, h2, h3] at h
          have h4 := Except.ok.inj h
          rw [← h4]
          exact ⟨rfl, rfl⟩

theorem lookup_per_page_buildEventsQuery (cid : Option String) (p : EventsParams) :
    qlookup "per_page" (buildEventsQuery cid p) = some (QVal.int (min p.per_page 50)) := by
  unfold buildEventsQuery
  rw [qlookup_withClientId_ne _ _ _ (by decide)]
  simp only [List.cons_append, List.nil_append]
  rw [qlookup_dropNullish_cons_ne "q" _ _ _ (by decide)]
  rw [qlookup_dropNullish_cons_ne "id" _ _ _ (by decide)]
  rw [qlookup_dropNullish_cons_ne "type" _ _ _ (by decide)]
  rw [qlookup_dropNullish_cons_ne "addons_visible" _ _ _ (by decide)]
  rw [qlookup_dropNullish_cons_ne "performers.id" _ _ _ (by decide)]
  rw [qlookup_dropNullish_cons_ne "performers.slug" _ _ _ (by decide)]
  rw [qlookup_dropNullish_cons_ne "venue.city" _ _ _ (by decide)]
  rw [qlookup_dropNullish_cons_ne "venue.state" _ _ _ (by decide)]
  rw [qlookup_dropNullish_cons_ne "venue.country" _ _ _ (by decide)]
  exact qlookup_dropNullish_hit _ _ _

/-- Claim C5: for seatgeek_events, a validated per_page request is sent
outbound as min(requested, 50); an absent per_page defaults to 10 and an
absent page defaults to 1; and a per_page below 1 is rejected by argument
validation, the handler failing identically for every fetch function, so no
request is issued. -/
theorem per_page_clamp_and_validation (a : EventsArgs) (cid : Option String) :
    (∀ (p : EventsParams) (n : Int), eventsQueryParse a = .ok p → a.per_page = some n →
        p.per_page = n ∧
        qlookup "per_page" (buildEventsQuery cid p) = some (QVal.int (min n 50))) ∧
    (∀ p : EventsParams, eventsQueryParse a = .ok p → a.per_page = none →
        p.per_page = 10 ∧
        qlookup "per_page" (buildEventsQuery cid p) = some (QVal.int 10)) ∧
    (∀ n : Int, a.per_page = some n → n < 1 →
        ∀ fetch, seatgeekEventsHandler cid a fetch
          = .error (.zodError "per_page is below the minimum of 1")) ∧
    (∀ p : EventsParams, eventsQueryParse a = .ok p → a.page = none → p.page = 1) := by
  refine ⟨?_, ?_, ?_, ?_⟩
  · intro p n hok hpp
    have h1 := (eventsQueryParse_ok_fields a p hok).1
    rw [hpp] at h1
    simp only [parsePerPage] at h1
    split at h1
    · simp at h1
    · split at h1
      · simp at h1
      · simp only [Except.ok.injEq] at h1
        refine ⟨h1.symm, ?_⟩
        rw [lookup_per_page_buildEventsQuery, h1]
  · intro p hok hpp
    have h1 := (eventsQueryParse_ok_fields a p hok).1
    rw [hpp] at h1
    simp only [parsePerPage, Except.ok.injEq] at h1
    refine ⟨h1.symm, ?_⟩
    rw [lookup_per_page_buildEventsQuery, ← h1]
    norm_num
  · intro n hn hlt fetch
    have hperr : eventsQueryParse a = .error "per_page is below the minimum of 1" := by
      simp only [eventsQueryParse, parsePerPage, hn]
      rw [if_pos hlt]
    simp only [seatgeekEventsHandler, hperr]
  · intro p hok hpg
    have h2 := (eventsQueryParse_ok_fields a p hok).2
    rw [hpg] at h2
    simp only [parsePage, Except.ok.injEq] at h2
    exact h2.symm

/-- Witness for claim C5: the empty argument object validates to per_page
10 and page 1 and sends per_page 10 outbound; a requested per_page of 0 is
rejected identically for every fetch function. -/
theorem per_page_clamp_and_validation_witness :
    (defaultEventsParams.per_page = 10 ∧
      qlookup "per_page" (buildEventsQuery none defaultEventsParams)
        = some (QVal.int 10)) ∧
    seatgeekEventsHandler none lowPerPageArgs (fun _ => Except.ok Json.null)
      = .error (.zodError "per_page is below the minimum of 1") ∧
    defaultEventsParams.page = 1 := by
  refine ⟨(per_page_clamp_and_validation emptyEventsArgs none).2.1 defaultEventsParams rfl rfl,
    ?_, ?_⟩
  · exact (per_page_clamp_and_validation lowPerPageArgs none).2.2.1 0 rfl (by decide) _
  · exact (per_page_clamp_and_validation emptyEventsArgs none).2.2.2 defaultEventsParams rfl rfl

/-- Claim C3, counterexample: the seatgeek_events builder given both a
performer slug and a venue city emits both performers.slug and venue.city,
so the venue filters are not omitted. -/
theorem performer_venue_filters_counterexample :
    qlookup "performers.slug" (buildEventsQuery2 none bothFiltersParams2)
        = some (QVal.str "the-weeknd") ∧
    qlookup "venue.city" (buildEventsQuery2 none bothFiltersParams2)
        = some (QVal.str "New York") := by
  exact ⟨rfl, rfl⟩

/-- Claim C3 (amended): the mutual exclusion holds in the list_events
generation, whose builder suppresses every venue key when the performer
slug is truthy; the seatgeek_events generation builder instead emits
performers.slug and the venue keys together. -/
theorem performer_venue_filter_exclusion_by_generation :
    (∀ (p : ListEventsParams) (s : String), p.performer_slug = some s → s ≠ "" →
        qlookup "performers.slug" (buildListEventsQuery p) = some (QVal.str s) ∧
        qlookup "venue" (buildListEventsQuery p) = none ∧
        qlookup "venue.city" (buildListEventsQuery p) = none) ∧
    (∀ (p : EventsParams2) (cid : Option String) (s c : String),
        p.performer_slug = some s → p.venue_city = some c →
        qlookup "performers.slug" (buildEventsQuery2 cid p) = some (QVal.str s) ∧
        qlookup "venue.city" (buildEventsQuery2 cid p) = some (QVal.str c)) := by
  constructor
  · intro p s hps hs
    have ht : truthyStr (some s) = true := by simp [truthyStr, hs]
    refine ⟨?_, ?_, ?_⟩
    · unfold buildListEventsQuery
      simp only [hps, ht, eq_self_iff_true, if_true, Option.getD_some,
        List.append_assoc, List.singleton_append, List.cons_append, List.nil_append]
      rw [qlookup_dropNullishEmpty_cons_ne "q" _ _ _ (by decide)]
      rw [qlookup_dropNullishEmpty_cons_ne "per_page" _ _ _ (by decide)]
      rw [qlookup_dropNullishEmpty_cons_ne "page" _ _ _ (by decide)]
      rw [qlookup_dropNullishEmpty_cons_ne "sort" _ _ _ (by decide)]
      exact qlookup_dropNullishEmpty_hit_str _ s _ hs
    · unfold buildListEventsQuery
      simp only [hps, ht, eq_self_iff_true, if_true, Option.getD_some,
        List.append_assoc, List.singleton_append, List.cons_append, List.nil_append]
      apply qlookup_dropNullishEmpty_none
      intro pr hpr
      simp only [List.mem_cons] at hpr
      rcases hpr with rfl | rfl | rfl | rfl | rfl | h5
      · simp
      · simp
      · simp
      · simp
      · simp
      · rcases List.mem_append.mp h5 with h6 | h6 <;>
          (have h7 := mem_ite_nil h6; rw [List.mem_singleton] at h7; subst h7; simp)
    · unfold buildListEventsQuery
      simp only [hps, ht, eq_self_iff_true, if_true, Option.getD_some,
        List.append_assoc, List.singleton_append, List.cons_append, List.nil_append]
      apply qlookup_dropNullishEmpty_none
      intro pr hpr
      simp only [List.mem_cons] at hpr
      rcases hpr with rfl | rfl | rfl | rfl | rfl | h5
      · simp
      · simp
      · simp
      · simp
      · simp
      · rcases List.mem_append.mp h5 with h6 | h6 <;>
          (have h7 := mem_ite_nil h6; rw [List.mem_singleton] at h7; subst h7; simp)
  · intro p cid s c hps hc
    constructor
    · unfold buildEventsQuery2
      rw [qlookup_withClientId_ne _ _ _ (by decide)]
      simp only [hps, Option.map_some', List.cons_append, List.nil_append]
      rw [qlookup_dropNullish_cons_ne "q" _ _ _ (by decide)]
      exact qlookup_dropNullish_hit _ _ _
    · unfold buildEventsQuery2
      rw [qlookup_withClientId_ne _ _ _ (by decide)]
      simp only [hps, hc, Option.map_some', List.cons_append, List.nil_append]
      rw [qlookup_dropNullish_cons_ne "q" _ _ _ (by decide)]
      rw [qlookup_dropNullish_cons_ne "performers.slug" _ _ _ (by decide)]
      exact qlookup_dropNullish_hit _ _ _

/-- Witness for claim C3 at a concrete parameter object of each builder
generation. -/
theorem performer_venue_filter_exclusion_witness :
    (qlookup "performers.slug" (buildListEventsQuery bothFiltersListParams)
        = some (QVal.str "the-weeknd") ∧
      qlookup "venue" (buildListEventsQuery bothFiltersListParams) = none) ∧
    qlookup "venue.city" (buildEventsQuery2 none bothFiltersParams2)
        = some (QVal.str "New York") := by
  have h1 := performer_venue_filter_exclusion_by_generation.1 bothFiltersListParams
    "the-weeknd" rfl (by decide)
  have h2 := performer_venue_filter_exclusion_by_generation.2 bothFiltersParams2 none
    "the-weeknd" "New York" rfl rfl
  exact ⟨⟨h1.1, h1.2.1⟩, h2.2⟩

/-- Claim C6: the find_events merge de-duplicates by event id: every id in
the de-duplicated output occurs exactly once; the surviving record is the
first occurrence of its id in the merged list, whose order is the branch
input order; no id is lost or invented; and under a truthy q with resolved
performers the handler data is exactly this de-duplicated merge of the
fan-out results in slug order. -/
theorem find_events_dedup_first_occurrence (branches : List (List RawEvent)) :
    (∀ e, e ∈ dedupById branches.flatten →
        ((dedupById branches.flatten).filter (fun x => x.id == e.id)).length = 1) ∧
    (∀ e, e ∈ dedupById branches.flatten →
        branches.flatten.find? (fun x => x.id == e.id) = some e) ∧
    (∀ i : Nat, (∃ e ∈ branches.flatten, e.id = i) ↔
        ∃ e ∈ dedupById branches.flatten, e.id = i) ∧
    (∀ (p : FindEventsParams) (perfs : List PerformerLite)
        (sf : String → Except String (List RawEvent)) (results : List (List RawEvent))
        (df : Except String (List RawEvent)),
        truthyStr p.q = true → perfs.length > 0 → (slugCandidates perfs).length > 0 →
        (slugCandidates perfs).mapM sf = Except.ok results →
        findEventsData p perfs sf df = .ok (dedupById results.flatten)) := by
  refine ⟨?_, ?_, ?_, ?_⟩
  · intro e he
    rw [filter_single_of_nodup_ids (dedupById branches.flatten)
      (ids_nodup_dedupByIdAux branches.flatten []) e he]
    rfl
  · intro e he
    exact find_dedupByIdAux he
  · intro i
    exact exists_id_dedupByIdAux (List.not_mem_nil i)
  · intro p perfs sf results df hq hp hs hm
    unfold findEventsData
    rw [hq, if_pos rfl, if_pos hp, if_pos hs, hm]

/-- Witness for claim C6: two fan-out branches share event id 2; the merge
keeps that id exactly once and the survivor is the first occurrence in
branch order. -/
theorem find_events_dedup_first_occurrence_witness :
    ((dedupById [[evA, evB], [evB2, evC]].flatten).filter
        (fun x => x.id == evB.id)).length = 1 ∧
    [[evA, evB], [evB2, evC]].flatten.find? (fun x => x.id == evB.id) = some evB := by
  have h := find_events_dedup_first_occurrence [[evA, evB], [evB2, evC]]
  exact ⟨h.1 evB (by decide), h.2.1 evB (by decide)⟩

/-- Claim C2: fetchJson makes at most 3 attempts; when the first three
attempt outcomes are all retryable (timeout, network error, or a 5xx
status) it raises after exactly 3 attempts, having waited 500 ms and then
1000 ms, and the timeout and network messages state the attempt count 3;
when an attempt fails with an HTTP status outside the 500-599 range after
only retryable failures, it rethrows immediately after that single such
attempt; and when an attempt succeeds after only retryable failures, its
parsed body is returned. -/
theorem fetchJson_retry_policy (outs : Nat → AttemptOutcome) :
    (fetchJsonModel outs).2.1 ≤ 3 ∧
    ((∀ i, i < 3 → retryableB (outs i) = true) →
        (fetchJsonModel outs).2.1 = 3 ∧ (fetchJsonModel outs).2.2 = [500, 1000] ∧
        (outs 2 = .timeout → (fetchJsonModel outs).1 = .timeoutError 3) ∧
        (outs 2 = .netError → (fetchJsonModel outs).1 = .networkError 3) ∧
        (∀ s, outs 2 = .httpError s → (fetchJsonModel outs).1 = .httpThrown s)) ∧
    (∀ k, k < 3 → (∀ i, i < k → retryableB (outs i) = true) →
        (∀ s, outs k = .httpError s → ¬(500 ≤ s ∧ s < 600) →
            (fetchJsonModel outs).1 = .httpThrown s ∧ (fetchJsonModel outs).2.1 = k + 1) ∧
        (∀ v, outs k = .success v →
            (fetchJsonModel outs).1 = .ok v ∧ (fetchJsonModel outs).2.1 = k + 1)) := by
  have e1 : fetchJsonModel outs = fetchGo outs 3 0 500 [] := rfl
  refine ⟨?_, ?_, ?_⟩
  · rw [e1]
    have h := fetchGo_attempts_le outs 3 0 500 []
    omega
  · intro hr
    have h0 := hr 0 (by norm_num)
    have h1 := hr 1 (by norm_num)
    have h2 := hr 2 (by norm_num)
    have s0 : fetchGo outs 3 0 500 [] = fetchGo outs 2 1 1000 [500] := by
      have h := fetchGo_step_retry outs 2 0 500 [] h0 (by decide)
      norm_num at h
      exact h
    have s1 : fetchGo outs 2 1 1000 [500] = fetchGo outs 1 2 2000 [500, 1000] := by
      have h := fetchGo_step_retry outs 1 1 1000 [500] h1 (by decide)
      norm_num at h
      exact h
    rw [e1, s0, s1]
    cases ho : outs 2 with
    | success v => rw [ho] at h2; simp [retryableB] at h2
    | timeout =>
        have heq := fetchGo_timeout_last outs 0 2 2000 [500, 1000] ho (by decide)
        norm_num at heq
        rw [heq]
        refine ⟨rfl, rfl, fun _ => rfl, fun hc => ?_, fun s hc => ?_⟩
        · exact AttemptOutcome.noConfusion hc
        · exact AttemptOutcome.noConfusion hc
    | netError =>
        have heq := fetchGo_net_last outs 0 2 2000 [500, 1000] ho (by decide)
        norm_num at heq
        rw [heq]
        refine ⟨rfl, rfl, fun hc => ?_, fun _ => rfl, fun s hc => ?_⟩
        · exact AttemptOutcome.noConfusion hc
        · exact AttemptOutcome.noConfusion hc
    | httpError s =>
        rw [ho] at h2
        simp only [retryableB, Bool.and_eq_true, decide_eq_true_eq] at h2
        have heq := fetchGo_http_fatal outs 0 2 2000 [500, 1000] s ho
          (by intro hc; exact absurd hc.2.2 (by decide))
        norm_num at heq
        rw [heq]
        refine ⟨rfl, rfl, fun hc => ?_, fun hc => ?_, fun s2 hc => ?_⟩
        · exact AttemptOutcome.noConfusion hc
        · exact AttemptOutcome.noConfusion hc
        · have h3 : s = s2 := AttemptOutcome.httpError.inj hc
          rw [h3]
  · intro k hk hr
    interval_cases k
    · constructor
      · intro s hs hns
        have heq := fetchGo_http_fatal outs 2 0 500 [] s hs
          (by intro hc; exact hns ⟨hc.1, hc.2.1⟩)
        norm_num at heq
        rw [e1, heq]
        exact ⟨rfl, rfl⟩
      · intro v hv
        have heq := fetchGo_success_eq outs 2 0 500 [] v hv
        norm_num at heq
        rw [e1, heq]
        exact ⟨rfl, rfl⟩
    · have s0 : fetchGo outs 3 0 500 [] = fetchGo outs 2 1 1000 [500] := by
        have h := fetchGo_step_retry outs 2 0 500 [] (hr 0 (by norm_num)) (by decide)
        norm_num at h
        exact h
      constructor
      · intro s hs hns
        have heq := fetchGo_http_fatal outs 1 1 1000 [500] s hs
          (by intro hc; exact hns ⟨hc.1, hc.2.1⟩)
        norm_num at heq
        rw [e1, s0, heq]
        exact ⟨rfl, rfl⟩
      · intro v hv
        have heq := fetchGo_success_eq outs 1 1 1000 [500] v hv
        norm_num at heq
        rw [e1, s0, heq]
        exact ⟨rfl, rfl⟩
    · have s0 : fetchGo outs 3 0 500 [] = fetchGo outs 2 1 1000 [500] := by
        have h := fetchGo_step_retry outs 2 0 500 [] (hr 0 (by norm_num)) (by decide)
        norm_num at h
        exact h
      have s1 : fetchGo outs 2 1 1000 [500] = fetchGo outs 1 2 2000 [500, 1000] := by
        have h := fetchGo_step_retry outs 1 1 1000 [500] (hr 1 (by norm_num)) (by decide)
        norm_num at h
        exact h
      constructor
      · intro s hs hns
        have heq := fetchGo_http_fatal outs 0 2 2000 [500, 1000] s hs
          (by intro hc; exact hns ⟨hc.1, hc.2.1⟩)
        norm_num at heq
        rw [e1, s0, s1, heq]
        exact ⟨rfl, rfl⟩
      · intro v hv
        have heq := fetchGo_success_eq outs 0 2 2000 [500, 1000] v hv
        norm_num at heq
        rw [e1, s0, s1, heq]
        exact ⟨rfl, rfl⟩

/-- Witness for claim C2: an always-timing-out oracle raises the timeout
error naming 3 attempts after waits of 500 and 1000 ms, and an immediate
404 rethrows after exactly one attempt. -/
theorem fetchJson_retry_policy_witness :
    (fetchJsonModel (fun _ => AttemptOutcome.timeout)).1 = FetchOutcome.timeoutError 3 ∧
    (fetchJsonModel (fun _ => AttemptOutcome.timeout)).2.1 = 3 ∧
    (fetchJsonModel (fun _ => AttemptOutcome.timeout)).2.2 = [500, 1000] ∧
    (fetchJsonModel (fun _ => AttemptOutcome.httpError 404)).1 = FetchOutcome.httpThrown 404 ∧
    (fetchJsonModel (fun _ => AttemptOutcome.httpError 404)).2.1 = 1 := by
  have h1 := (fetchJson_retry_policy (fun _ => AttemptOutcome.timeout)).2.1
    (fun i _ => rfl)
  have h2 := ((fetchJson_retry_policy (fun _ => AttemptOutcome.httpError 404)).2.2 0
    (by norm_num) (fun i hi => absurd hi (Nat.not_lt_zero i))).1 404 rfl (by decide)
  exact ⟨h1.2.2.1 rfl, h1.1, h1.2.1, h2.1, h2.2⟩

/-- Claim C4, counterexample: the find_events discovery tool runs its
argument parse before the try block, so an argument-validation failure (a
per_page of 0) propagates out of the handler as a thrown error instead of
producing the structured error content result the claim requires. -/
theorem find_events_throws_on_invalid_args :
    findEventsHandler "2024-01-01T00:00:00Z" lowPerPageFindArgs []
        (fun _ => Except.ok []) (Except.ok [])
      = .error (.zodError "per_page is below the minimum of 1") := by
  rfl

/-- Claim C4 (amended): the handlers whose catch wraps the whole body
(the list_events generation) return the structured errorBlock, whose
details carry the API_REQUEST_FAILED tag, for any top-level failure
including argument validation, and never throw; find_events returns the
errorBlock for upstream failures but its argument parse runs before the
try block and a validation failure is thrown; the seatgeek_events
generation has no catch, so both validation and fetch failures are
thrown. -/
theorem error_handling_by_generation (now : String) :
    (∀ (args : FindEventsArgs) (perfs : List PerformerLite)
        (sf : String → Except String (List RawEvent)) (df : Except String (List RawEvent))
        (p : FindEventsParams) (m : String),
        findEventsValidate args = .ok p →
        findEventsData p perfs sf df = .error m →
        findEventsHandler now args perfs sf df =
          .ok (.errorBlock "Failed to fetch events"
            { error := "API_REQUEST_FAILED", message := m, timestamp := now,
              endpoint := EVENTS_ENDPOINT, args := args }
            "Please check your parameters and try again. Common issues include invalid search terms or venue codes.")) ∧
    (∀ (args : FindEventsArgs) (m : String) (perfs : List PerformerLite)
        (sf : String → Except String (List RawEvent)) (df : Except String (List RawEvent)),
        findEventsValidate args = .error m →
        findEventsHandler now args perfs sf df = .error (.zodError m)) ∧
    (∀ (a : ListEventsArgs) (fetch : List (String × QVal) → Except String Json),
        exceptOk (listEventsP2Handler now a fetch) = true) ∧
    (∀ (a : ListEventsArgs) (m : String) (fetch : List (String × QVal) → Except String Json),
        listEventsValidate a = .error m →
        listEventsP2Handler now a fetch =
          .ok (.errorBlock "Failed to fetch events"
            { error := "API_REQUEST_FAILED", message := m, timestamp := now,
              endpoint := EVENTS_ENDPOINT, args := a }
            "Please check your parameters and try again. Common issues include invalid performer slugs or venue codes.")) ∧
    (∀ (cid : Option String) (a : EventsArgs) (p : EventsParams)
        (fetch : List (String × QVal) → Except String Json) (m : String),
        eventsQueryParse a = .ok p → fetch (buildEventsQuery cid p) = .error m →
        seatgeekEventsHandler cid a fetch = .error (.fetchFailure m)) := by
  refine ⟨?_, ?_, ?_, ?_, ?_⟩
  · intro args perfs sf df p m hv hd
    simp only [findEventsHandler, hv, hd]
  · intro args m perfs sf df hv
    simp only [findEventsHandler, hv]
  · intro a fetch
    cases hv : listEventsValidate a with
    | error m => simp [listEventsP2Handler, hv, exceptOk]
    | ok p =>
        cases hf : fetch (buildListEventsQuery p) with
        | error m => simp [listEventsP2Handler, hv, hf, exceptOk]
        | ok d =>
            simp only [listEventsP2Handler, hv, hf]
            split <;> rfl
  · intro a m fetch hv
    simp only [listEventsP2Handler, hv]
  · intro cid a p fetch m hok hf
    simp only [seatgeekEventsHandler, hok, hf]

/-- Witness for claim C4 at concrete argument objects and fetch oracles
for each of the three handler generations. -/
theorem error_handling_by_generation_witness :
    findEventsHandler "t0" emptyFindArgs [] (fun _ => Except.ok []) (Except.error "boom")
      = .ok (.errorBlock "Failed to fetch events"
          { error := "API_REQUEST_FAILED", message := "boom", timestamp := "t0",
            endpoint := EVENTS_ENDPOINT, args := emptyFindArgs }
          "Please check your parameters and try again. Common issues include invalid search terms or venue codes.") ∧
    findEventsHandler "t0" lowPerPageFindArgs [] (fun _ => Except.ok []) (Except.ok [])
      = .error (.zodError "per_page is below the minimum of 1") ∧
    exceptOk (listEventsP2Handler "t0" lowPerPageListArgs (fun _ => Except.ok Json.null))
      = true ∧
    listEventsP2Handler "t0" lowPerPageListArgs (fun _ => Except.ok Json.null)
      = .ok (.errorBlock "Failed to fetch events"
          { error := "API_REQUEST_FAILED", message := "per_page is below the minimum of 1",
            timestamp := "t0", endpoint := EVENTS_ENDPOINT, args := lowPerPageListArgs }
          "Please check your parameters and try again. Common issues include invalid performer slugs or venue codes.") ∧
    seatgeekEventsHandler none emptyEventsArgs (fun _ => Except.error "boom")
      = .error (.fetchFailure "boom") := by
  have h := error_handling_by_generation "t0"
  exact ⟨h.1 emptyFindArgs [] (fun _ => Except.ok []) (Except.error "boom")
      defaultFindParams "boom" rfl rfl,
    h.2.1 lowPerPageFindArgs "per_page is below the minimum of 1" []
      (fun _ => Except.ok []) (Except.ok []) rfl,
    h.2.2.1 lowPerPageListArgs (fun _ => Except.ok Json.null),
    h.2.2.2.1 lowPerPageListArgs "per_page is below the minimum of 1"
      (fun _ => Except.ok Json.null) rfl,
    h.2.2.2.2 none emptyEventsArgs defaultEventsParams (fun _ => Except.error "boom")
      "boom" rfl rfl⟩

end SeatgeekMCP
